import Mathlib

/-!
# WebSentinel: trace normalization and compliance analysis, verified

A shallow embedding of the execution-trace normalization and compliance-analysis
pipeline of `api_server.py` (class `BrowserExecutor` and the module-level
`analyze_results_direct` / `analyze_results_endpoint` functions), together with
theorems settling the specified properties of that pipeline.

Python strings are embedded as `String`, Python dictionaries as structures whose
fields carry the `dict.get` defaults used by the code, Python `None` as `Option`,
and Python substring / prefix tests as decidable predicates over `String.data`.
File writes and the wall clock are side effects: the clock is threaded as an
explicit `now : String` parameter and a screenshot write's success or failure as
an explicit `writeOk` flag, so that every function here is a total, executable
Lean function.
-/

/-! ## String helpers mirroring the Python string operations -/

/-- Python `sub in s` (substring containment). Python's `in` is true for the
empty substring, as is `List.IsInfix` for `[]`. -/
def strContains (s sub : String) : Bool := decide (sub.data <:+: s.data)

/-- Python `s.startswith(p)`. True for the empty prefix, as in Python. -/
def strStartsWith (s p : String) : Bool := decide (p.data <+: s.data)

/-- Python `s.lower()`, character by character. -/
def pyLower (s : String) : String := ⟨s.data.map Char.toLower⟩

/-- Python `s.rstrip("/")`: remove all trailing `'/'` characters. -/
def rstripSlash (s : String) : String :=
  ⟨(s.data.reverse.dropWhile (fun c => c = '/')).reverse⟩

/-- Python `s.strip()` restricted to what the code needs: whether the string has
any non-whitespace character (`len(result_data.strip()) > 0`). -/
def hasNonWhitespace (s : String) : Bool :=
  s.data.any (fun c => !c.isWhitespace)

/-- `urllib.parse.urlparse(s).netloc` for the URL shapes the code meets: the
host part between `scheme://` (or a leading `//`) and the first `/`, `?` or `#`.
Strings with no `//` authority marker have an empty netloc, as in Python. -/
def urlNetloc (s : String) : String :=
  let host (t : String) : String := ⟨t.data.takeWhile (fun c => !(c = '/' || c = '?' || c = '#'))⟩
  match s.splitOn "://" with
  | [only] => if strStartsWith only "//" then host (only.drop 2) else ""
  | _ :: rest :: _ => host rest
  | [] => ""

/-! ## Compliance Analyzer (`analyze_results_direct`, api_server.py lines 1249-1393)

Input model. The analyzer reads its two dict arguments only through `.get` with
defaults, so each structure field carries the value of the corresponding key,
with the `.get` default standing for an absent key. `screenshot_instructions`
is read only through `len` and truthiness, so it is embedded as its length. -/

/-- One entry of a step's `actions` list as the analyzer reads it:
`action.get("type")` and `action.get("details", {}).get("url", "")`. -/
structure AnalyzerAction where
  type : String
  url : String
deriving DecidableEq, Repr

/-- One execution step as the analyzer reads it: `step.get("action", "")`,
`step.get("result", "")`, `step.get("actions", [])` (an absent `actions` key and
an empty list are indistinguishable to methods 2's loop), and the `content`
strings of `step.get("results", [])`. -/
structure AnalyzerStep where
  action : String
  result : String
  actions : List AnalyzerAction
  results : List String
deriving DecidableEq, Repr

/-- One enhanced step as the analyzer reads it (method 1 only looks at a
top-level `actions` key). -/
structure AnalyzerEnhancedStep where
  actions : List AnalyzerAction
deriving DecidableEq, Repr

/-- The `execution_results` dict as the analyzer reads it. -/
structure ExecutionInput where
  task_id : String
  success : Bool
  error : Option String
  execution_steps : List AnalyzerStep
  enhanced_steps : List AnalyzerEnhancedStep
  screenshots : List String
  full_conversation_length : Nat
deriving DecidableEq, Repr

/-- The `original_instructions` dict as the analyzer reads it;
`screenshot_instruction_count` is `len(original_instructions.get("screenshot_instructions", []))`. -/
structure InstructionsInput where
  target_url : String
  task_description : String
  screenshot_instruction_count : Nat
deriving DecidableEq, Repr

/-- `review_report["compliance_check"]["screenshots_captured"]`. -/
structure ScreenshotCompliance where
  required : Nat
  captured : Nat
  meets_requirements : Bool
deriving DecidableEq, Repr

/-- `review_report["execution_summary"]`. -/
structure ExecutionSummary where
  success : Bool
  steps_completed : Nat
  screenshots_captured : Nat
  error : Option String
deriving DecidableEq, Repr

/-- The review report returned by `analyze_results_direct`. The `timestamp` and
`review_file` fields depend on the wall clock (`datetime.now()`), which is
threaded in as the `now` argument. -/
structure ReviewReport where
  task_id : String
  timestamp : String
  target_url_accessed : Bool
  screenshots_captured : ScreenshotCompliance
  recommendations : List String
  execution_summary : ExecutionSummary
  conversation_length : Nat
  screenshot_analysis : String
  review_file : String
deriving DecidableEq, Repr

/-- Method 1 (lines 1283-1293): a `navigate` action among the enhanced steps
whose `details.url` starts with the target URL, trailing slash stripped. -/
def urlDetectMethod1 (enhanced : List AnalyzerEnhancedStep) (target : String) : Bool :=
  enhanced.any fun st => st.actions.any fun a =>
    a.type == "navigate" && strStartsWith a.url (rstripSlash target)

/-- Method 2 (lines 1295-1306): the same check over the execution steps'
embedded `actions` lists. -/
def urlDetectMethod2 (steps : List AnalyzerStep) (target : String) : Bool :=
  steps.any fun st => st.actions.any fun a =>
    a.type == "navigate" && strStartsWith a.url (rstripSlash target)

/-- Method 3 (lines 1308-1319): a result `content` containing both
"navigated to" and the target URL, case-insensitively. -/
def urlDetectMethod3 (steps : List AnalyzerStep) (target : String) : Bool :=
  steps.any fun st => st.results.any fun content =>
    strContains (pyLower content) "navigated to" &&
    strContains (pyLower content) (pyLower target)

/-- Method 4 (lines 1321-1333): navigation keywords, the target URL, or the
phrase "navigated to" in the step's lowercased action / result text. -/
def urlDetectMethod4 (steps : List AnalyzerStep) (target : String) : Bool :=
  steps.any fun st =>
    let a := pyLower st.action
    let r := pyLower st.result
    strContains a "navigate" || strContains a "goto" ||
    strContains a (pyLower target) ||
    strContains r "navigated to" || strContains r (pyLower target)

/-- Method 5 body (lines 1335-1347): the target URL's lowercased host appears
in the concatenated action and result text of some step. The code only runs it
when `target_url` is truthy, a guard `detectUrlAccessed` applies. -/
def urlDetectMethod5 (steps : List AnalyzerStep) (target : String) : Bool :=
  let dom := pyLower (urlNetloc target)
  steps.any fun st => strContains (pyLower (st.action ++ " " ++ st.result)) dom

/-- The five-method cascade; each later method runs only if all earlier ones
left `url_accessed` false, which for pure predicates is boolean disjunction.
Method 5 additionally requires a non-empty target URL. -/
def detectUrlAccessed (er : ExecutionInput) (target : String) : Bool :=
  urlDetectMethod1 er.enhanced_steps target ||
  urlDetectMethod2 er.execution_steps target ||
  urlDetectMethod3 er.execution_steps target ||
  urlDetectMethod4 er.execution_steps target ||
  (target != "" && urlDetectMethod5 er.execution_steps target)

/-- "Task execution failed - check error logs" -/
def msgExecutionFailed : String := "Task execution failed - check error logs"

/-- f"Target URL {target_url} may not have been properly accessed" -/
def msgUrlNotAccessed (target : String) : String :=
  "Target URL " ++ target ++ " may not have been properly accessed"

/-- "Not all required screenshots were captured" -/
def msgMissingScreenshots : String := "Not all required screenshots were captured"

/-- "Task appears to have completed successfully" -/
def msgTaskCompleted : String := "Task appears to have completed successfully"

/-- f"Target URL {target_url} was successfully accessed" -/
def msgUrlAccessed (target : String) : String :=
  "Target URL " ++ target ++ " was successfully accessed"

/-- f"Successfully captured {len(captured_screenshots)} screenshots" -/
def msgScreenshotsCaptured (n : Nat) : String :=
  "Successfully captured " ++ toString n ++ " screenshots"

/-- f"Completed {steps_count} execution steps" -/
def msgStepsCompleted (n : Nat) : String :=
  "Completed " ++ toString n ++ " execution steps"

/-- Recommendation generation (lines 1361-1382), in source order. Note that in
the source the "completed successfully" and "successfully accessed" messages
are both nested inside `if url_accessed:` within the `if success:` block. -/
def buildRecommendations (success urlAccessed : Bool) (required captured stepsCount : Nat)
    (target : String) : List String :=
  (if success then [] else [msgExecutionFailed]) ++
  (if urlAccessed then [] else [msgUrlNotAccessed target]) ++
  (if required > 0 ∧ captured < required then [msgMissingScreenshots] else []) ++
  (if success then
    (if urlAccessed then [msgTaskCompleted, msgUrlAccessed target] else []) ++
    (if captured > 0 then [msgScreenshotsCaptured captured] else []) ++
    (if stepsCount > 0 then [msgStepsCompleted stepsCount] else [])
  else [])

/-- `analyze_results_direct(execution_results, original_instructions)`, with the
wall clock threaded as `now`. Saving the report file is a side effect whose
failure only sets an `error` key; it is not part of the returned report model. -/
def analyzeResultsDirect (er : ExecutionInput) (oi : InstructionsInput) (now : String) :
    ReviewReport :=
  let urlAccessed := detectUrlAccessed er oi.target_url
  let required := oi.screenshot_instruction_count
  let captured := er.screenshots.length
  let stepsCount := er.execution_steps.length
  { task_id := er.task_id
    timestamp := now
    target_url_accessed := urlAccessed
    screenshots_captured :=
      { required := required
        captured := captured
        meets_requirements := if required > 0 then decide (required ≤ captured) else true }
    recommendations :=
      buildRecommendations er.success urlAccessed required captured stepsCount oi.target_url
    execution_summary :=
      { success := er.success
        steps_completed := stepsCount
        screenshots_captured := captured
        error := er.error }
    conversation_length := er.full_conversation_length
    screenshot_analysis :=
      if captured > 0 then "Screenshots captured at key moments" else "No screenshots captured"
    review_file := "./operation_logs/review_report_" ++ er.task_id ++ "_" ++ now ++ ".json" }

/-- The spec's `ComplianceReport`: the clock-independent verdict fields of the
review report (data model section 3 of the specification). -/
structure ComplianceReport where
  target_url_accessed : Bool
  screenshot_compliance : ScreenshotCompliance
  recommendations : List String
  execution_summary : ExecutionSummary
deriving DecidableEq, Repr

/-- Projection of a review report onto the spec's `ComplianceReport`. -/
def complianceReportOf (r : ReviewReport) : ComplianceReport :=
  { target_url_accessed := r.target_url_accessed
    screenshot_compliance := r.screenshots_captured
    recommendations := r.recommendations
    execution_summary := r.execution_summary }

/-! ## Text classification pass (api_server.py lines 856-1016)

These helpers classify the free-text action / result renderings used by cascade
branches 2 and 3 of the Trace Normalizer. Python `s.split('\n')[0].strip()` is
the first line, stripped. -/

/-- Python `s.strip()` (both-ends whitespace strip). -/
def pyStrip (s : String) : String :=
  ⟨((s.data.dropWhile Char.isWhitespace).reverse.dropWhile Char.isWhitespace).reverse⟩

/-- `s.split('\n')[0].strip()`. -/
def firstLineStripped (s : String) : String :=
  pyStrip ⟨s.data.takeWhile (fun c => !(c = '\n'))⟩

/-- Python `any(word in s for word in words)`. -/
def containsAnyWord (s : String) (words : List String) : Bool :=
  words.any (fun w => strContains s w)

/-- Python first_line[:60] + "..." truncation used by both summary extractors. -/
def truncate60 (fl : String) : String :=
  if fl.data.length > 60 then (⟨fl.data.take 60⟩ : String) ++ "..." else fl

/-- `extract_action_summary` (lines 856-882). -/
def extractActionSummary (actionData : String) : String :=
  if actionData = "" || actionData = "N/A" then "No action specified"
  else
    let fl := firstLineStripped actionData
    let low := pyLower fl
    if strContains low "navigate" || strContains low "goto" then "Navigating to webpage"
    else if strContains low "click" then "Clicking element"
    else if strContains low "type" || strContains low "input" then "Entering text"
    else if strContains low "scroll" then "Scrolling page"
    else if strContains low "wait" then "Waiting for element"
    else if strContains low "screenshot" then "Taking screenshot"
    else if strContains low "search" then "Searching"
    else truncate60 fl

/-- `extract_result_summary` (lines 914-939). The `'[]'` test is on the raw
first line, the keyword tests on its lowercasing, as in the source. -/
def extractResultSummary (resultData : String) : String :=
  if resultData = "" || resultData = "N/A" then "No result available"
  else
    let fl := firstLineStripped resultData
    let low := pyLower fl
    if strContains low "success" then "Action completed successfully"
    else if strContains low "failed" || strContains low "error" then "Action failed"
    else if strContains low "found" then "Element found"
    else if strContains low "loaded" then "Page loaded"
    else if strContains low "clicked" then "Click performed"
    else if strContains low "typed" then "Text entered"
    else if strContains fl "[]" || strContains low "empty" then "No results returned"
    else truncate60 fl

/-- `classify_action_type` (lines 974-998). -/
def classifyActionType (actionData : String) : String :=
  if actionData = "" || actionData = "N/A" then "unknown"
  else
    let low := pyLower actionData
    if containsAnyWord low ["navigate", "goto", "visit"] then "navigation"
    else if containsAnyWord low ["click", "tap", "press"] then "interaction"
    else if containsAnyWord low ["type", "input", "enter", "fill"] then "input"
    else if containsAnyWord low ["scroll", "swipe"] then "scroll"
    else if containsAnyWord low ["wait", "pause", "sleep"] then "wait"
    else if containsAnyWord low ["screenshot", "capture", "image"] then "capture"
    else if containsAnyWord low ["search", "find", "locate"] then "search"
    else if containsAnyWord low ["extract", "get", "read"] then "extraction"
    else "other"

/-- `determine_success_status` (lines 1000-1016). The success keyword group is
tested before the failure group; `'[]'` is tested on the raw string, the other
emptiness keywords on the lowercasing; a non-empty, non-matching string with
any non-whitespace character is "completed". -/
def determineSuccessStatus (resultData : String) : String :=
  if resultData = "" || resultData = "N/A" then "unknown"
  else
    let low := pyLower resultData
    if containsAnyWord low ["success", "completed", "done", "found"] then "success"
    else if containsAnyWord low ["failed", "error", "exception", "timeout", "not found"] then "failed"
    else if strContains resultData "[]" || strContains low "empty" || strContains low "none" then "empty"
    else if hasNonWhitespace resultData then "completed"
    else "unknown"

/-- `parse_action_details` result (lines 884-912): the fields a specified
property can observe. The purely diagnostic `action_lines`, regex-extracted
`contains_urls` and `contains_elements` fields are not modelled; no claim
reads them. `none` stands for the `{}` returned on empty input. -/
structure ParsedActionDetails where
  raw_action : String
  contains_errors : Bool
deriving DecidableEq, Repr

/-- `parse_action_details` (lines 884-912). -/
def parseActionDetails (actionData : String) : Option ParsedActionDetails :=
  if actionData = "" || actionData = "N/A" then none
  else some
    { raw_action := actionData
      contains_errors := containsAnyWord (pyLower actionData) ["error", "failed", "exception", "timeout"] }

/-- `parse_result_details` result (lines 941-972); the diagnostic
`result_lines` and `element_count` fields are not modelled. -/
structure ParsedResultDetails where
  raw_result : String
  contains_data : Bool
  is_empty_result : Bool
  contains_errors : Bool
deriving DecidableEq, Repr

/-- `parse_result_details` (lines 941-972). -/
def parseResultDetails (resultData : String) : Option ParsedResultDetails :=
  if resultData = "" || resultData = "N/A" then none
  else some
    { raw_result := resultData
      contains_data := resultData.data.length > 10
      is_empty_result := strContains resultData "[]" || strContains (pyLower resultData) "empty"
      contains_errors := containsAnyWord (pyLower resultData) ["error", "failed", "exception", "timeout"] }

/-! ## Agent-thought correlation (`enhance_step_with_thoughts`, lines 295-359) -/

/-- One parsed entry of the agent-thoughts log (`load_agent_thoughts` output):
a timestamp, a lowercased type tag, and the message. -/
structure Thought where
  timestamp : String
  type : String
  message : String
deriving DecidableEq, Repr

/-- Line 305: `max(1, len(agent_thoughts) // max(1, step_number)) if agent_thoughts else 0`.
The divisor is the step NUMBER, not the number of steps in the trace. -/
def thoughtsPerStep (total stepNumber : Nat) : Nat :=
  if total > 0 then max 1 (total / max 1 stepNumber) else 0

/-- Lines 305-309: the slice `agent_thoughts[start_idx:end_idx]` handed to one
step, with `start_idx = (step_number - 1) * thoughts_per_step` and
`end_idx = min(len(agent_thoughts), start_idx + thoughts_per_step + 2)`. -/
def thoughtWindow (agentThoughts : List Thought) (stepNumber : Nat) : List Thought :=
  let tps := thoughtsPerStep agentThoughts.length stepNumber
  let start := (stepNumber - 1) * tps
  let endIdx := min agentThoughts.length (start + tps + 2)
  (agentThoughts.drop start).take (endIdx - start)

/-- The three category lists a step's thoughts are sorted into. -/
structure StepThoughts where
  actions : List String
  observations : List String
  decisions : List String
deriving DecidableEq, Repr

/-- Lines 309-315: sort a thought window into the three category lists,
keeping order; entries of any other type are dropped. -/
def categorizeThoughts (window : List Thought) : StepThoughts :=
  { actions := (window.filter (fun t => t.type == "action")).map (fun t => t.message)
    observations := (window.filter (fun t => t.type == "observation")).map (fun t => t.message)
    decisions := (window.filter (fun t => t.type == "decision")).map (fun t => t.message) }

/-! ## Trace Normalizer (`save_execution_results`, api_server.py lines 394-854)

The raw step model enumerates the shapes the detection cascade recognizes:
an `AgentHistory`-like object (`model_output` + `result`), a tuple, and the
attribute-probe fallback. An object none of whose probed attributes is present
and truthy is `attrStep none none none none` — the "matches no cascade branch"
case. All modelled processing is total; exception-prone effects (screenshot
decoding and file writes) carry an explicit outcome (`writeOk`, `errMsg`)
standing for the `try/except` around each write. -/

/-- One action object inside `model_output.action`, as discriminated by the
fixed attribute cascade of lines 500-526. `unrecognized` is an action object
with none of the nine probed attributes present and truthy. -/
inductive ActionItem where
  | goToUrl (url : String)
  | inputText (text : String) (index : Int)
  | clickElementByIndex (index : Int)
  | logAction (message : String)
  | logObservation (message : String)
  | logDecision (message : String)
  | doneAct (text : String) (success : Bool)
  | extractContent (goal : String)
  | takeScreenshotNow (description : String)
  | unrecognized
deriving DecidableEq, Repr

/-- The `details` mapping paired with an action type tag. -/
inductive ActionDetails where
  | urlD (url : String)
  | textIndexD (text : String) (index : Int)
  | indexD (index : Int)
  | messageD (message : String)
  | textSuccessD (text : String) (success : Bool)
  | goalD (goal : String)
  | descriptionD (description : String)
  | emptyD
deriving DecidableEq, Repr

/-- `{"type": ..., "details": ...}` as appended at lines 528-531. -/
structure ActionRec where
  type : String
  details : ActionDetails
deriving DecidableEq, Repr

/-- Lines 496-531: classify one action object into its `(type, details)` pair. -/
def extractActionRec : ActionItem → ActionRec
  | .goToUrl url => ⟨"navigate", .urlD url⟩
  | .inputText text index => ⟨"input", .textIndexD text index⟩
  | .clickElementByIndex index => ⟨"click", .indexD index⟩
  | .logAction m => ⟨"log_action", .messageD m⟩
  | .logObservation m => ⟨"log_observation", .messageD m⟩
  | .logDecision m => ⟨"log_decision", .messageD m⟩
  | .doneAct t s => ⟨"done", .textSuccessD t s⟩
  | .extractContent g => ⟨"extract_content", .goalD g⟩
  | .takeScreenshotNow d => ⟨"screenshot", .descriptionD d⟩
  | .unrecognized => ⟨"unknown", .emptyD⟩

/-- One entry of the `result` container (lines 533-543): whether the object has
an `extracted_content` attribute at all (items without it are skipped), its
value (Python `None` is `none`), and the `getattr` defaults for the rest. -/
structure RawActionResult where
  hasExtractedContent : Bool
  extracted_content : Option String
  is_done : Bool
  success : Option Bool
  error : Option String
deriving DecidableEq, Repr

/-- One entry of the normalized `results` list. -/
structure ResultRec where
  content : Option String
  is_done : Bool
  success : Option Bool
  error : Option String
deriving DecidableEq, Repr

/-- Lines 534-543: keep exactly the items exposing `extracted_content`. -/
def extractResults (rs : List RawActionResult) : List ResultRec :=
  rs.filterMap fun r =>
    if r.hasExtractedContent then
      some ⟨r.extracted_content, r.is_done, r.success, r.error⟩
    else none

/-- `model_output.current_state` (lines 546-553). -/
structure BrainState where
  evaluation : String
  memory : String
  next_goal : String
deriving DecidableEq, Repr

/-- A screenshot payload together with the outcome of decoding and writing it:
`writeOk = false` stands for the exception the `try` around the write catches,
with `errMsg` its rendering `str(e)`. -/
structure ScreenshotDatum where
  payload : String
  writeOk : Bool
  errMsg : String
deriving DecidableEq, Repr

/-- One element of a tuple-shaped raw step: its `str()` rendering, its
truthiness, and its `screenshot` attribute when present and truthy. -/
structure TupleItem where
  render : String
  truthy : Bool
  screenshot : Option ScreenshotDatum
deriving DecidableEq, Repr

/-- A raw history step, one constructor per cascade branch (lines 487, 610,
664). For `attrStep`, each field is the first present, truthy value among the
probed attribute names of its category (lines 666-669), `none` when no probe
hits; the screenshot field collapses the four-name probe loop to its first
present attribute. -/
inductive RawStep where
  | agentHistory (actions : List ActionItem) (resultsData : List RawActionResult)
      (brain : Option BrainState) (screenshot : Option ScreenshotDatum)
  | tupleStep (items : List TupleItem)
  | attrStep (action : Option String) (result : Option String)
      (timestamp : Option String) (screenshot : Option ScreenshotDatum)
deriving DecidableEq, Repr

/-- The `step_info` dict (lines 458-469) restricted to the keys a specified
property can observe; `action`/`result` default to "N/A", `actions`/`results`
are absent (empty) outside the AgentHistory branch. -/
structure StepInfo where
  step_number : Nat
  action : String
  result : String
  timestamp : String
  screenshot : Option String
  screenshot_url : Option String
  action_type : String
  success : Bool
  actions : List ActionRec
  results : List ResultRec
  brain_state : Option BrainState
  thoughts : Option StepThoughts
deriving DecidableEq, Repr

/-- The `action_details` value of an enhanced step: the structured form of the
AgentHistory branch (line 573), the parsed form of the text branches (lines
622, 679), or the initial `{}`. The `thoughts` sub-key added by enhancement is
carried on the step itself. -/
inductive ActionDetailsField where
  | structured (actions : List ActionRec) (brain : Option BrainState)
  | parsed (p : Option ParsedActionDetails)
  | emptyDetails
deriving DecidableEq, Repr

/-- The `result_details` value of an enhanced step. -/
inductive ResultDetailsField where
  | structured (results : List ResultRec)
  | parsed (p : Option ParsedResultDetails)
  | emptyDetails
deriving DecidableEq, Repr

/-- The `enhanced_step` dict (lines 472-484): the canonical `NormalizedStep`. -/
structure EnhancedStep where
  step_number : Nat
  timestamp : String
  action_summary : String
  action_details : ActionDetailsField
  result_summary : String
  result_details : ResultDetailsField
  action_type : String
  success_status : String
  screenshot_url : Option String
  errors : List String
  thoughts : Option StepThoughts
deriving DecidableEq, Repr

/-- The per-step defaults of lines 458-469 (0-based index `i`). -/
def initialStepInfo (i : Nat) (ts : String) : StepInfo :=
  { step_number := i + 1, action := "N/A", result := "N/A", timestamp := ts
    screenshot := none, screenshot_url := none, action_type := "unknown"
    success := false, actions := [], results := [], brain_state := none
    thoughts := none }

/-- The per-step defaults of lines 472-484. -/
def initialEnhancedStep (i : Nat) (ts : String) : EnhancedStep :=
  { step_number := i + 1, timestamp := ts, action_summary := "Unknown action"
    action_details := .emptyDetails, result_summary := "No result available"
    result_details := .emptyDetails, action_type := "unknown"
    success_status := "unknown", screenshot_url := none, errors := []
    thoughts := none }

/-- `enhance_step_with_thoughts` (lines 295-359). `actions = []` covers both
Python `actions=None` and an empty list (identically falsy at line 318). The
mirror write into `action_details["thoughts"]` (line 357) duplicates the
`thoughts` field and is not modelled separately. -/
def enhanceStepWithThoughts (stepInfo : StepInfo) (enh : EnhancedStep) (stepNumber : Nat)
    (agentThoughts : List Thought) (actions : List ActionRec) : StepInfo × EnhancedStep :=
  let fromLog := categorizeThoughts (thoughtWindow agentThoughts stepNumber)
  let msgsOf (ty : String) : List String :=
    actions.filterMap fun a =>
      if a.type == ty then
        match a.details with
        | .messageD m => if m == "" then none else some m
        | _ => none
      else none
  let stepThoughts : StepThoughts :=
    { actions := fromLog.actions ++ msgsOf "log_action"
      observations := fromLog.observations ++ msgsOf "log_observation"
      decisions := fromLog.decisions ++ msgsOf "log_decision" }
  let actionSummary :=
    match stepThoughts.actions with
    | m :: _ => m
    | [] =>
      match stepThoughts.decisions with
      | d :: _ => "Decision: " ++ d
      | [] =>
        match stepThoughts.observations with
        | o :: _ => "Observation: " ++ o
        | [] =>
          if actions.isEmpty then stepInfo.action
          else
            let technical := actions.filter fun a =>
              !(a.type == "log_action" || a.type == "log_observation" || a.type == "log_decision")
            let names := (if technical.isEmpty then actions else technical).map fun a => a.type
            "Step " ++ toString stepNumber ++ ": " ++ String.intercalate ", " names
  ({ stepInfo with action := actionSummary, thoughts := some stepThoughts },
   { enh with action_summary := actionSummary, thoughts := some stepThoughts })

/-- f"{task_id}_step_{i+1}_{timestamp}.png" (0-based `i`). -/
def screenshotFilename (taskId : String) (i : Nat) (ts : String) : String :=
  taskId ++ "_step_" ++ toString (i + 1) ++ "_" ++ ts ++ ".png"

/-- `str(self.screenshots_dir / filename)` with `screenshots_dir =
Path("./operation_logs/screenshots")`. -/
def screenshotPathOf (fn : String) : String := "operation_logs/screenshots/" ++ fn

/-- f"/screenshots/{filename}". -/
def screenshotUrlFor (fn : String) : String := "/screenshots/" ++ fn

/-- Outcome of the tuple branch's screenshot loop (lines 634-662): paths and
URLs appended to the result lists, errors appended to the step, and the
`step_info` path/URL set by the first successful item (the loop breaks on
success and continues past failures). -/
structure ShotScan where
  shots : List String
  urls : List String
  errors : List String
  stepPath : Option String
  stepUrl : Option String
deriving DecidableEq, Repr

/-- The loop of lines 634-662 over the tuple's items. -/
def tupleScreenshotScan (path url : String) : List TupleItem → ShotScan
  | [] => ⟨[], [], [], none, none⟩
  | it :: rest =>
    match it.screenshot with
    | none => tupleScreenshotScan path url rest
    | some sd =>
      if sd.writeOk then ⟨[path], [url], [], some path, some url⟩
      else
        let s := tupleScreenshotScan path url rest
        ⟨s.shots, s.urls, ("Screenshot save error: " ++ sd.errMsg) :: s.errors,
          s.stepPath, s.stepUrl⟩

/-- Everything one loop iteration of `save_execution_results` contributes: the
two step records, the screenshot paths/URLs appended to the flat lists, and
whether a `full_conversation` entry was appended (line 757; its regex-derived
contents are diagnostic only and not modelled). -/
structure StepOut where
  info : StepInfo
  enhanced : EnhancedStep
  shots : List String
  shotUrls : List String
  convo : Bool
deriving DecidableEq, Repr

/-- One iteration of the loop at lines 453-831: branch detection, per-branch
extraction, screenshot persistence, and the thought-enhancement calls (lines
607 and 632 inside their branches, line 754 for every step). -/
def processStep (taskId ts : String) (agentThoughts : List Thought) (i : Nat) :
    RawStep → StepOut
  | .agentHistory acts resultsIn brain shot =>
    let actions := acts.map extractActionRec
    let resultsData := extractResults resultsIn
    let stepSuccess :=
      if resultsData.isEmpty then true else resultsData.all fun r => r.success == some true
    let typesJoined := String.intercalate ", " (actions.map fun a => a.type)
    let actionType := match actions with | a :: _ => a.type | [] => "unknown"
    let si1 := { initialStepInfo i ts with
      action := "Step " ++ toString (i + 1) ++ ": " ++ typesJoined
      result := "Results: " ++ toString resultsData.length ++ " actions completed"
      actions := actions, results := resultsData, brain_state := brain
      action_type := actionType, success := stepSuccess }
    let e1 := { initialEnhancedStep i ts with
      action_summary := "Step " ++ toString (i + 1) ++ ": " ++ typesJoined
      action_details := .structured actions brain
      result_summary := "Completed " ++ toString resultsData.length ++ " actions"
      result_details := .structured resultsData
      action_type := actionType
      success_status := if stepSuccess then "success" else "failed" }
    let fn := screenshotFilename taskId i ts
    let afterShot :=
      match shot with
      | none => (si1, e1, ([] : List String), ([] : List String))
      | some sd =>
        if sd.writeOk then
          ({ si1 with screenshot := some (screenshotPathOf fn)
                      screenshot_url := some (screenshotUrlFor fn) },
           { e1 with screenshot_url := some (screenshotUrlFor fn) },
           [screenshotPathOf fn], [screenshotUrlFor fn])
        else
          (si1, { e1 with errors := e1.errors ++ ["Screenshot save error: " ++ sd.errMsg] },
           [], [])
    let (si2, e2, shots, urls) := afterShot
    let (si3, e3) := enhanceStepWithThoughts si2 e2 (i + 1) agentThoughts actions
    let (si4, e4) := enhanceStepWithThoughts si3 e3 (i + 1) agentThoughts []
    ⟨si4, e4, shots, urls, si4.action != "N/A"⟩
  | .tupleStep items =>
    let pair :=
      match items with
      | it0 :: it1 :: _ =>
        let actionData := if it0.truthy then it0.render else "N/A"
        let resultData := if it1.truthy then it1.render else "N/A"
        let si := { initialStepInfo i ts with action := actionData, result := resultData }
        let e := { initialEnhancedStep i ts with
          action_summary := extractActionSummary actionData
          action_details := .parsed (parseActionDetails actionData)
          result_summary := extractResultSummary resultData
          result_details := .parsed (parseResultDetails resultData)
          action_type := classifyActionType actionData
          success_status := determineSuccessStatus resultData }
        enhanceStepWithThoughts si e (i + 1) agentThoughts []
      | _ => (initialStepInfo i ts, initialEnhancedStep i ts)
    let (si1, e1) := pair
    let fn := screenshotFilename taskId i ts
    let scan := tupleScreenshotScan (screenshotPathOf fn) (screenshotUrlFor fn) items
    let si2 :=
      match scan.stepUrl with
      | some u => { si1 with screenshot := scan.stepPath, screenshot_url := some u }
      | none => si1
    let e2 := { e1 with
      screenshot_url := match scan.stepUrl with | some u => some u | none => e1.screenshot_url
      errors := e1.errors ++ scan.errors }
    let (si3, e3) := enhanceStepWithThoughts si2 e2 (i + 1) agentThoughts []
    ⟨si3, e3, scan.shots, scan.urls, si3.action != "N/A"⟩
  | .attrStep actOpt resOpt tsOpt shotOpt =>
    let pairA :=
      match actOpt with
      | some a =>
        ({ initialStepInfo i ts with action := a },
         { initialEnhancedStep i ts with
           action_summary := extractActionSummary a
           action_details := .parsed (parseActionDetails a)
           action_type := classifyActionType a })
      | none => (initialStepInfo i ts, initialEnhancedStep i ts)
    let (siA, eA) := pairA
    let pairB :=
      match resOpt with
      | some r =>
        ({ siA with result := r },
         { eA with
           result_summary := extractResultSummary r
           result_details := .parsed (parseResultDetails r)
           success_status := determineSuccessStatus r })
      | none => (siA, eA)
    let (siB, eB) := pairB
    let pairC :=
      match tsOpt with
      | some t => ({ siB with timestamp := t }, { eB with timestamp := t })
      | none => (siB, eB)
    let (siC, eC) := pairC
    let fn := screenshotFilename taskId i ts
    let afterShot :=
      match shotOpt with
      | none => (siC, eC, ([] : List String), ([] : List String))
      | some sd =>
        if sd.writeOk then
          ({ siC with screenshot := some (screenshotPathOf fn)
                      screenshot_url := some (screenshotUrlFor fn) },
           { eC with screenshot_url := some (screenshotUrlFor fn) },
           [screenshotPathOf fn], [screenshotUrlFor fn])
        else
          (siC, { eC with errors := eC.errors ++ ["Screenshot processing error: " ++ sd.errMsg] },
           [], [])
    let (siD, eD, shots, urls) := afterShot
    let (siE, eE) := enhanceStepWithThoughts siD eD (i + 1) agentThoughts []
    ⟨siE, eE, shots, urls, siE.action != "N/A"⟩

/-- The loop over `history_list` (line 453), carrying the 0-based index. -/
def processSteps (taskId ts : String) (agentThoughts : List Thought) :
    Nat → List RawStep → List StepOut
  | _, [] => []
  | i, s :: rest =>
    processStep taskId ts agentThoughts i s :: processSteps taskId ts agentThoughts (i + 1) rest

/-- The `results` dict built by `save_execution_results`, restricted to the
keys a specified property can observe. `full_conversation` is modelled by its
length. -/
structure ExecResults where
  task_id : String
  timestamp : String
  execution_steps : List StepInfo
  screenshots : List String
  screenshot_urls : List String
  success : Bool
  error : Option String
  full_conversation_count : Nat
  enhanced_steps : List EnhancedStep
  agent_thoughts : List Thought
deriving DecidableEq, Repr

/-- `save_execution_results(history, task_details, task_id)` (lines 394-854)
over an already-flattened history list. All modelled per-step processing is
total, so the whole-loop `except` of line 838 never fires and `error` stays
`None`; `success` is set to `True` exactly when the history list is non-empty
(lines 452, 833). Writing the JSON log file (lines 845-852) is a side effect
outside this model. -/
def saveExecutionResults (taskId ts : String) (agentThoughts : List Thought)
    (history : List RawStep) : ExecResults :=
  let outs := processSteps taskId ts agentThoughts 0 history
  { task_id := taskId
    timestamp := ts
    execution_steps := outs.map fun o => o.info
    screenshots := (outs.map fun o => o.shots).flatten
    screenshot_urls := (outs.map fun o => o.shotUrls).flatten
    success := !history.isEmpty
    error := none
    full_conversation_count := (outs.filter fun o => o.convo).length
    enhanced_steps := outs.map fun o => o.enhanced
    agent_thoughts := agentThoughts }

/-- Lines 1113-1122 of `execute_task`: append the manually captured initial and
final screenshots; `capture_manual_screenshot` returns either a (path, url)
pair or `(None, None)`, so the two lists grow in lockstep here too. -/
def addManualScreenshots (r : ExecResults) (initialShot finalShot : Option (String × String)) :
    ExecResults :=
  let r1 :=
    match initialShot with
    | some pu => { r with screenshots := r.screenshots ++ [pu.1]
                          screenshot_urls := r.screenshot_urls ++ [pu.2] }
    | none => r
  match finalShot with
  | some pu => { r1 with screenshots := r1.screenshots ++ [pu.1]
                         screenshot_urls := r1.screenshot_urls ++ [pu.2] }
  | none => r1

/-! ## Narrative Enricher fallback (`analyze_results_endpoint`, lines 1634-1946)

The external planning call and the extraction cascade over its heterogeneous
response (lines 1690-1905) are collapsed into one `Except String String`
outcome: `.ok content` is a successfully extracted analysis, `.error e` is any
exception raised by the call or by the cascade (including the explicit
"insufficient analysis content" raise at line 1905), all of which land in the
`except` of line 1907. -/

/-- The templated fallback analysis of lines 1912-1933, built purely from the
structured metrics. -/
def fallbackNarrative (taskSuccess : Bool) (stepsCount screenshotsCount : Nat)
    (urlAccessed : Bool) (recs : List String) : String :=
  "**AI Analysis Report**\n\n**Executive Summary:**\nThe browser automation task "
  ++ (if taskSuccess then "completed successfully" else "encountered issues")
  ++ " with " ++ toString stepsCount ++ " execution steps and "
  ++ toString screenshotsCount ++ " screenshots captured. "
  ++ (if urlAccessed then "The target URL was accessed properly"
      else "There may have been issues accessing the target URL")
  ++ ".\n\n**Key Findings:**\n• Task Status: "
  ++ (if taskSuccess then "Success" else "Failed")
  ++ "\n• Execution Steps: " ++ toString stepsCount
  ++ " completed\n• Visual Documentation: " ++ toString screenshotsCount
  ++ " screenshots captured\n• Target URL Access: "
  ++ (if urlAccessed then "Successful" else "Failed or incomplete")
  ++ "\n• Error Status: "
  ++ (if taskSuccess then "No errors detected" else "Errors occurred during execution")
  ++ "\n\n**Recommendations:**\n"
  ++ (if recs.isEmpty then
        "• Review execution logs for detailed information\n• Check screenshots for visual confirmation\n• Verify task completion manually if needed"
      else String.intercalate "\n" (recs.map fun r => "• " ++ r))
  ++ "\n\n**Compliance Status:**\n• Overall Assessment: "
  ++ (if taskSuccess && urlAccessed then "PASS" else "NEEDS REVIEW")
  ++ "\n• Target URL Compliance: " ++ (if urlAccessed then "PASS" else "FAIL")
  ++ "\n• Task Execution: " ++ (if taskSuccess then "PASS" else "FAIL")
  ++ "\n\n---\n*Note: This analysis was generated using fallback mode due to AI analysis system limitations. The task execution results above are still accurate.*"

/-- The analysis object stored and returned by the endpoint (lines 1936-1946),
restricted to the fields the specified properties observe. -/
structure AnalysisResult where
  task_id : String
  analysis_content : String
  analysis_method : String
deriving DecidableEq, Repr

/-- The endpoint's analysis assembly (lines 1648-1946): compute the structured
report, condense the metrics (lines 1657-1666), run the external call, and on
any exception fall back to the template. `analysis_method` is
`"portia" if 'portia_error' not in locals() else "fallback"` (line 1941).
In Python 3 the name bound by `except Exception as portia_error:` is deleted
again when the handler exits, so by line 1941 `portia_error` is never in
`locals()` and the method tag is "portia" on BOTH paths — the string
"fallback" on that line is dead. The fallback path is recognizable only from
the template narrative itself (its closing "generated using fallback mode"
note). -/
def analyzeResultsEndpointAnalysis (taskId : String) (er : ExecutionInput)
    (oi : InstructionsInput) (now : String) (portiaOutcome : Except String String) :
    AnalysisResult :=
  let rr := analyzeResultsDirect er oi now
  match portiaOutcome with
  | .ok content => ⟨taskId, content, "portia"⟩
  | .error _ =>
    ⟨taskId,
      fallbackNarrative er.success er.execution_steps.length er.screenshots.length
        rr.target_url_accessed rr.recommendations,
      "portia"⟩

/-! ## Theorems -/

/-- **C7** — For every analysis input, screenshot-compliance
`meets_requirements` equals `captured ≥ required` when `required > 0` and is
`true` when `required = 0` regardless of `captured`; concretely `required = 0`
gives `true` (for `captured = 0` and `captured = 5` alike), `required = 3,
captured = 2` gives `false`, and `required = 3, captured = 3` gives `true`. -/
theorem c7_screenshot_compliance :
    (∀ er oi now, (analyzeResultsDirect er oi now).screenshots_captured.meets_requirements =
      (if oi.screenshot_instruction_count = 0 then true
       else decide (oi.screenshot_instruction_count ≤ er.screenshots.length))) ∧
    (analyzeResultsDirect
      ⟨"t", true, none, [], [], [], 0⟩ ⟨"https://x.com", "d", 0⟩ "now").screenshots_captured.meets_requirements = true ∧
    (analyzeResultsDirect
      ⟨"t", true, none, [], [], ["a", "b", "c", "d", "e"], 0⟩ ⟨"https://x.com", "d", 0⟩ "now").screenshots_captured.meets_requirements = true ∧
    (analyzeResultsDirect
      ⟨"t", true, none, [], [], ["a", "b"], 0⟩ ⟨"https://x.com", "d", 3⟩ "now").screenshots_captured.meets_requirements = false ∧
    (analyzeResultsDirect
      ⟨"t", true, none, [], [], ["a", "b", "c"], 0⟩ ⟨"https://x.com", "d", 3⟩ "now").screenshots_captured.meets_requirements = true := by
  refine ⟨?_, by decide, by decide, by decide, by decide⟩
  intro er oi now
  simp only [analyzeResultsDirect]
  rcases Nat.eq_zero_or_pos oi.screenshot_instruction_count with h | h
  · simp [h]
  · simp [h, Nat.pos_iff_ne_zero.mp h]

/-- **C4** — The Compliance Analyzer is deterministic: the `ComplianceReport`
part of the review report (URL verdict, screenshot compliance, recommendations,
execution summary) is a pure function of the two inputs, unchanged under any
two wall-clock readings; the embedded analyzer is total, so it never raises. -/
theorem c4_analyzer_deterministic :
    ∀ er oi now₁ now₂,
      complianceReportOf (analyzeResultsDirect er oi now₁) =
      complianceReportOf (analyzeResultsDirect er oi now₂) := by
  intro er oi now₁ now₂
  rfl

/-- **C9** — `determine_success_status` always returns one of the five tags,
and the success keyword group is tested first: any result text whose
lowercasing contains one of "success", "completed", "done", "found" is
classified "success" even if it also contains failure indicators; in
particular "element not found" is "success", not "failed". -/
theorem c9_success_status :
    (∀ s, determineSuccessStatus s ∈ (["success", "failed", "empty", "completed", "unknown"] : List String)) ∧
    (∀ s w, w ∈ (["success", "completed", "done", "found"] : List String) →
      strContains (pyLower s) w = true → determineSuccessStatus s = "success") ∧
    determineSuccessStatus "element not found" = "success" := by
  have key : ∀ s w, w ∈ (["success", "completed", "done", "found"] : List String) →
      strContains (pyLower s) w = true → determineSuccessStatus s = "success" := by
    intro s w hw hc
    have hne : ¬(s = "" ∨ s = "N/A") := by
      rintro (rfl | rfl) <;> fin_cases hw <;> exact absurd hc (by decide)
    have hs : s = "" → False := fun h => hne (Or.inl h)
    have hn : s = "N/A" → False := fun h => hne (Or.inr h)
    have hgroup : containsAnyWord (pyLower s) ["success", "completed", "done", "found"] = true := by
      exact List.any_eq_true.mpr ⟨w, hw, hc⟩
    simp [determineSuccessStatus, hs, hn, containsAnyWord] at hgroup ⊢
    rcases hgroup with h | h | h | h <;> simp [h] <;> exact ⟨hs, hn⟩
  refine ⟨?_, key, key "element not found" "found" (by decide) (by decide)⟩
  intro s
  simp only [determineSuccessStatus]
  split
  · simp
  · split
    · simp
    · split
      · simp
      · split
        · simp
        · split <;> simp

/-- Witness for `c9_success_status`: its keyword-priority part applied at the
concrete input "element not found". -/
theorem c9_success_status_witness :
    determineSuccessStatus "element not found" = "success" :=
  c9_success_status.2.1 "element not found" "found" (by decide) (by decide)

/-- A string sitting between two others is a substring of the concatenation. -/
theorem strInfixMid (a b c : String) : b.data <:+: (a ++ b ++ c).data :=
  ⟨a.data, c.data, by simp [String.data_append]⟩

/-- Substring containment extends to a longer right context. -/
theorem strInfixExtendRight {b : String} {l : List Char} (h : l <:+: b.data) (c : String) :
    l <:+: (b ++ c).data := by
  rcases h with ⟨pre, post, hpre⟩
  exact ⟨pre, post ++ c.data, by simp [String.data_append, ← hpre]⟩

/-- Substring containment extends to a longer left context. -/
theorem strInfixExtendLeft {b : String} {l : List Char} (h : l <:+: b.data) (a : String) :
    l <:+: (a ++ b).data := by
  rcases h with ⟨pre, post, hpre⟩
  exact ⟨a.data ++ pre, post, by simp [String.data_append, ← hpre]⟩

/-- A list is a contiguous sublist of itself followed by anything. -/
theorem listInfixHere {α : Type} (l r : List α) : l <:+: l ++ r :=
  ⟨[], r, by simp⟩

/-- Contiguous-sublist containment survives prepending context. -/
theorem listInfixSkip {α : Type} (x : List α) {l r : List α} (h : l <:+: r) :
    l <:+: x ++ r := by
  rcases h with ⟨pre, post, hpre⟩
  exact ⟨x ++ pre, post, by simp [← hpre]⟩

/-- Every fallback narrative carries the "generated using fallback mode" note
of its closing line — after the method-tag bug, the only surviving provenance
marker of the fallback path. -/
theorem fallbackNarrative_contains_note
    (taskSuccess : Bool) (stepsCount screenshotsCount : Nat) (urlAccessed : Bool)
    (recs : List String) :
    strContains (fallbackNarrative taskSuccess stepsCount screenshotsCount urlAccessed recs)
      "generated using fallback mode" = true := by
  have h : ("generated using fallback mode").data <:+:
      (fallbackNarrative taskSuccess stepsCount screenshotsCount urlAccessed recs).data := by
    simp only [fallbackNarrative, String.data_append, List.append_assoc]
    iterate 26 (apply listInfixSkip)
    decide
  simpa [strContains] using h

/-- **C6** — The narrative half of the claim holds: whenever the external
enrichment call (or its extraction cascade) raises, the endpoint still returns
the non-empty templated narrative containing the structured metrics of the
compliance report (step count, screenshot count, and the task success flag
rendered Success/Failed). The provenance half is a code bug: the
`analysis_method` field is "portia" on the fallback path too — identical to
the normal LLM path — because Python 3 unbinds the
`except Exception as portia_error` target when the handler exits, so line
1941's `'portia_error' not in locals()` is always true and the intended
"fallback" tag is dead code. At the concrete failing input (a raised
enrichment call over a successful two-step, one-screenshot run) the returned
method tag is "portia", not "fallback"; the only fallback marker is the
"generated using fallback mode" note inside the narrative text. -/
theorem c6_fallback_tag_code_bug :
    (∀ taskId er oi now err content,
      (analyzeResultsEndpointAnalysis taskId er oi now (Except.error err)).analysis_method =
        (analyzeResultsEndpointAnalysis taskId er oi now (Except.ok content)).analysis_method) ∧
    (∀ taskId er oi now err,
      (analyzeResultsEndpointAnalysis taskId er oi now (Except.error err)).analysis_content ≠ "" ∧
      (toString (analyzeResultsDirect er oi now).execution_summary.steps_completed).data <:+:
        (analyzeResultsEndpointAnalysis taskId er oi now (Except.error err)).analysis_content.data ∧
      (toString (analyzeResultsDirect er oi now).execution_summary.screenshots_captured).data <:+:
        (analyzeResultsEndpointAnalysis taskId er oi now (Except.error err)).analysis_content.data ∧
      ((if (analyzeResultsDirect er oi now).execution_summary.success then "Success"
        else "Failed") : String).data <:+:
        (analyzeResultsEndpointAnalysis taskId er oi now (Except.error err)).analysis_content.data) ∧
    ((analyzeResultsEndpointAnalysis "t"
        ⟨"t", true, none, [⟨"a", "b", [], []⟩, ⟨"c", "d", [], []⟩],
          [⟨[⟨"navigate", "https://x.com/"⟩]⟩], ["s1"], 0⟩
        ⟨"https://x.com", "d", 0⟩ "now" (Except.error "boom")).analysis_method = "portia" ∧
      (analyzeResultsEndpointAnalysis "t"
        ⟨"t", true, none, [⟨"a", "b", [], []⟩, ⟨"c", "d", [], []⟩],
          [⟨[⟨"navigate", "https://x.com/"⟩]⟩], ["s1"], 0⟩
        ⟨"https://x.com", "d", 0⟩ "now" (Except.error "boom")).analysis_method ≠ "fallback" ∧
      strContains
        (analyzeResultsEndpointAnalysis "t"
          ⟨"t", true, none, [⟨"a", "b", [], []⟩, ⟨"c", "d", [], []⟩],
            [⟨[⟨"navigate", "https://x.com/"⟩]⟩], ["s1"], 0⟩
          ⟨"https://x.com", "d", 0⟩ "now" (Except.error "boom")).analysis_content
        "generated using fallback mode" = true) := by
  refine ⟨fun taskId er oi now err content => rfl, ?_, by decide, by decide,
    fallbackNarrative_contains_note true 2 1 true _⟩
  intro taskId er oi now err
  refine ⟨?_, ?_, ?_, ?_⟩
  · intro h
    have hd := congrArg String.data h
    rw [show ("" : String).data = [] from rfl] at hd
    simp only [analyzeResultsEndpointAnalysis, fallbackNarrative, String.data_append,
      List.append_assoc] at hd
    exact absurd (List.append_eq_nil.mp hd).1 (by decide)
  · simp only [analyzeResultsEndpointAnalysis, fallbackNarrative, String.data_append,
      List.append_assoc, analyzeResultsDirect]
    exact listInfixSkip _ (listInfixSkip _ (listInfixSkip _ (listInfixHere _ _)))
  · simp only [analyzeResultsEndpointAnalysis, fallbackNarrative, String.data_append,
      List.append_assoc, analyzeResultsDirect]
    exact listInfixSkip _ (listInfixSkip _ (listInfixSkip _ (listInfixSkip _
      (listInfixSkip _ (listInfixHere _ _)))))
  · simp only [analyzeResultsEndpointAnalysis, fallbackNarrative, String.data_append,
      List.append_assoc, analyzeResultsDirect]
    exact listInfixSkip _ (listInfixSkip _ (listInfixSkip _ (listInfixSkip _
      (listInfixSkip _ (listInfixSkip _ (listInfixSkip _ (listInfixSkip _
        (listInfixSkip _ (listInfixHere _ _)))))))))

/-- **C3, counterexample** — With an empty target URL and a single execution
step (action "x", result "y"), the analyzer reports `target_url_accessed =
true`, because method 4's substring test `target_url.lower() in action_text`
is trivially satisfied by the empty string; the claim requires `false` for
every input with an empty target URL. -/
theorem c3_counterexample :
    (analyzeResultsDirect
      ⟨"t", true, none, [⟨"x", "y", [], []⟩], [], [], 0⟩
      ⟨"", "d", 0⟩ "now").target_url_accessed = true := by decide

/-- **C3, amended** — With an empty target URL, `target_url_accessed` is true
exactly when some enhanced step carries a `navigate` action (method 1, whose
`startswith("")` test is trivially true) or the execution step list is
non-empty (method 4, whose `"" in text` test is trivially true); it is false
only when both lists give no hit — in particular for an empty step list. -/
theorem c3_empty_target_accessed :
    ∀ er td n now,
      (analyzeResultsDirect er ⟨"", td, n⟩ now).target_url_accessed = true ↔
      ((∃ st ∈ er.enhanced_steps, ∃ a ∈ st.actions, a.type = "navigate") ∨
        er.execution_steps ≠ []) := by
  intro er td n now
  simp only [analyzeResultsDirect, detectUrlAccessed]
  constructor
  · intro h
    rcases Bool.or_eq_true _ _ |>.mp h with h4 | h5
    · rcases Bool.or_eq_true _ _ |>.mp h4 with h3 | hm4
      · rcases Bool.or_eq_true _ _ |>.mp h3 with h2 | hm3
        · rcases Bool.or_eq_true _ _ |>.mp h2 with hm1 | hm2
          · left
            rcases List.any_eq_true.mp hm1 with ⟨st, hst, hinner⟩
            rcases List.any_eq_true.mp hinner with ⟨a, ha, hcond⟩
            exact ⟨st, hst, a, ha, by simpa using (Bool.and_eq_true _ _ |>.mp hcond).1⟩
          · right
            rcases List.any_eq_true.mp hm2 with ⟨st, hst, _⟩
            exact List.ne_nil_of_mem hst
        · right
          rcases List.any_eq_true.mp hm3 with ⟨st, hst, _⟩
          exact List.ne_nil_of_mem hst
      · right
        rcases List.any_eq_true.mp hm4 with ⟨st, hst, _⟩
        exact List.ne_nil_of_mem hst
    · exact absurd h5 (by simp)
  · intro h
    rcases h with ⟨st, hst, a, ha, hnav⟩ | hne
    · have hm1 : urlDetectMethod1 er.enhanced_steps "" = true := by
        refine List.any_eq_true.mpr ⟨st, hst, List.any_eq_true.mpr ⟨a, ha, ?_⟩⟩
        simp [hnav, strStartsWith, rstripSlash]
      simp [urlDetectMethod1] at hm1
      simp [urlDetectMethod1, hm1]
    · have hm4 : urlDetectMethod4 er.execution_steps "" = true := by
        rcases List.exists_mem_of_ne_nil _ hne with ⟨st, hst⟩
        refine List.any_eq_true.mpr ⟨st, hst, ?_⟩
        simp [strContains, pyLower]
      simp [urlDetectMethod4] at hm4
      simp [urlDetectMethod4, hm4]

/-- **C5, counterexample** — A successful run whose target URL was not detected
(success = true, one screenshot, no steps, required = 0) gets no
success-confirmation entry at all: the positive "Task appears to have completed
successfully" message is nested under `if url_accessed:` in the source, while
the claim requires it whenever success is true. -/
theorem c5_counterexample :
    (analyzeResultsDirect
      ⟨"t", true, none, [], [], ["shot1.png"], 0⟩
      ⟨"https://x.com", "d", 0⟩ "now").recommendations =
      [msgUrlNotAccessed "https://x.com", msgScreenshotsCaptured 1] ∧
    msgTaskCompleted ∉
      (analyzeResultsDirect
        ⟨"t", true, none, [], [], ["shot1.png"], 0⟩
        ⟨"https://x.com", "d", 0⟩ "now").recommendations := by
  constructor
  · decide
  · decide

/-- **C5, amended** — The recommendation list is built additively in the fixed
source order: an execution-failed message when success is false; a
URL-not-accessed message when the detected url_accessed is false; a
missing-screenshots message when required > 0 and captured < required; then,
when success AND url_accessed both hold, the success-confirmation message and
the URL-success message; plus, when success holds, a screenshot-count message
if any screenshots were captured and a step-count message if any steps ran.
Scenario D (success, URL accessed, 5 screenshots, required = 0, one step)
yields exactly four positive entries and no negative ones. -/
theorem c5_recommendation_order :
    (∀ er oi now,
      (analyzeResultsDirect er oi now).recommendations =
        (if er.success then [] else [msgExecutionFailed]) ++
        (if detectUrlAccessed er oi.target_url then [] else [msgUrlNotAccessed oi.target_url]) ++
        (if oi.screenshot_instruction_count > 0 ∧
            er.screenshots.length < oi.screenshot_instruction_count
          then [msgMissingScreenshots] else []) ++
        (if er.success then
          (if detectUrlAccessed er oi.target_url then
            [msgTaskCompleted, msgUrlAccessed oi.target_url] else []) ++
          (if er.screenshots.length > 0 then [msgScreenshotsCaptured er.screenshots.length] else []) ++
          (if er.execution_steps.length > 0 then [msgStepsCompleted er.execution_steps.length] else [])
        else [])) ∧
    (analyzeResultsDirect
      ⟨"t", true, none, [⟨"a", "b", [], []⟩], [⟨[⟨"navigate", "https://x.com/"⟩]⟩],
        ["s1", "s2", "s3", "s4", "s5"], 0⟩
      ⟨"https://x.com", "d", 0⟩ "now").recommendations =
      [msgTaskCompleted, msgUrlAccessed "https://x.com",
        msgScreenshotsCaptured 5, msgStepsCompleted 1] := by
  exact ⟨fun er oi now => rfl, by decide⟩

/-- Thought enhancement never changes a step's number (it only rewrites the
summary and thought fields). -/
theorem enhance_enhanced_step_number (si : StepInfo) (e : EnhancedStep) (n : Nat)
    (th : List Thought) (acts : List ActionRec) :
    ((enhanceStepWithThoughts si e n th acts).2).step_number = e.step_number := rfl

/-- Thought enhancement never changes a `step_info` step number. -/
theorem enhance_info_step_number (si : StepInfo) (e : EnhancedStep) (n : Nat)
    (th : List Thought) (acts : List ActionRec) :
    ((enhanceStepWithThoughts si e n th acts).1).step_number = si.step_number := rfl

/-- The enhanced step produced for the raw step at 0-based index `i` carries
step number `i + 1`, whatever the step's shape. -/
theorem processStep_enhanced_step_number (taskId ts : String) (th : List Thought)
    (i : Nat) (s : RawStep) :
    (processStep taskId ts th i s).enhanced.step_number = i + 1 := by
  cases s with
  | agentHistory acts res brain shot =>
    rcases shot with _ | ⟨p, wok, m⟩
    · rfl
    · cases wok <;> rfl
  | tupleStep items =>
    rcases items with _ | ⟨it0, _ | ⟨it1, rest⟩⟩
    · rfl
    · rcases hsc : tupleScreenshotScan (screenshotPathOf (screenshotFilename taskId i ts))
        (screenshotUrlFor (screenshotFilename taskId i ts)) [it0] with ⟨sh, ur, er, sp, su⟩
      simp only [processStep, hsc]
      cases su <;> rfl
    · rcases hsc : tupleScreenshotScan (screenshotPathOf (screenshotFilename taskId i ts))
        (screenshotUrlFor (screenshotFilename taskId i ts)) (it0 :: it1 :: rest) with
        ⟨sh, ur, er, sp, su⟩
      simp only [processStep, hsc]
      cases su <;> rfl
  | attrStep actOpt resOpt tsOpt shotOpt =>
    rcases shotOpt with _ | ⟨p, wok, m⟩ <;>
      cases actOpt <;> cases resOpt <;> cases tsOpt <;>
      first
      | rfl
      | (cases wok <;> rfl)

/-- The `step_info` produced for the raw step at 0-based index `i` carries
step number `i + 1`. -/
theorem processStep_info_step_number (taskId ts : String) (th : List Thought)
    (i : Nat) (s : RawStep) :
    (processStep taskId ts th i s).info.step_number = i + 1 := by
  cases s with
  | agentHistory acts res brain shot =>
    rcases shot with _ | ⟨p, wok, m⟩
    · rfl
    · cases wok <;> rfl
  | tupleStep items =>
    rcases items with _ | ⟨it0, _ | ⟨it1, rest⟩⟩
    · rfl
    · rcases hsc : tupleScreenshotScan (screenshotPathOf (screenshotFilename taskId i ts))
        (screenshotUrlFor (screenshotFilename taskId i ts)) [it0] with ⟨sh, ur, er, sp, su⟩
      simp only [processStep, hsc]
      cases su <;> rfl
    · rcases hsc : tupleScreenshotScan (screenshotPathOf (screenshotFilename taskId i ts))
        (screenshotUrlFor (screenshotFilename taskId i ts)) (it0 :: it1 :: rest) with
        ⟨sh, ur, er, sp, su⟩
      simp only [processStep, hsc]
      cases su <;> rfl
  | attrStep actOpt resOpt tsOpt shotOpt =>
    rcases shotOpt with _ | ⟨p, wok, m⟩ <;>
      cases actOpt <;> cases resOpt <;> cases tsOpt <;>
      first
      | rfl
      | (cases wok <;> rfl)

/-- The loop yields one output per raw step. -/
theorem processSteps_length (taskId ts : String) (th : List Thought) :
    ∀ (i : Nat) (steps : List RawStep),
      (processSteps taskId ts th i steps).length = steps.length := by
  intro i steps
  induction steps generalizing i with
  | nil => rfl
  | cons s rest ih => simp [processSteps, ih]

/-- The enhanced steps' numbers starting at index `i` are `i+1, i+2, ...`. -/
theorem processSteps_enhanced_numbers (taskId ts : String) (th : List Thought) :
    ∀ (i : Nat) (steps : List RawStep),
      (processSteps taskId ts th i steps).map (fun o => o.enhanced.step_number) =
        List.range' (i + 1) steps.length := by
  intro i steps
  induction steps generalizing i with
  | nil => rfl
  | cons s rest ih =>
    simp [processSteps, List.range'_succ, processStep_enhanced_step_number,
      ih (i + 1), Nat.add_assoc, Nat.add_comm 1 1]

/-- The raw `step_info` records' numbers starting at index `i`. -/
theorem processSteps_info_numbers (taskId ts : String) (th : List Thought) :
    ∀ (i : Nat) (steps : List RawStep),
      (processSteps taskId ts th i steps).map (fun o => o.info.step_number) =
        List.range' (i + 1) steps.length := by
  intro i steps
  induction steps generalizing i with
  | nil => rfl
  | cons s rest ih =>
    simp [processSteps, List.range'_succ, processStep_info_step_number,
      ih (i + 1), Nat.add_assoc, Nat.add_comm 1 1]

/-- **C2** — For every raw step sequence of length N, the Trace Normalizer
produces exactly N normalized steps (both the `enhanced_steps` and the
`execution_steps` lists), whose `step_number` values are exactly
`[1, 2, ..., N]` in raw-step order — unique, strictly increasing, contiguous
from 1. -/
theorem c2_step_numbering :
    ∀ taskId ts thoughts history,
      (saveExecutionResults taskId ts thoughts history).enhanced_steps.length = history.length ∧
      (saveExecutionResults taskId ts thoughts history).execution_steps.length = history.length ∧
      (saveExecutionResults taskId ts thoughts history).enhanced_steps.map
          (fun e => e.step_number) = List.range' 1 history.length ∧
      (saveExecutionResults taskId ts thoughts history).execution_steps.map
          (fun s => s.step_number) = List.range' 1 history.length := by
  intro taskId ts thoughts history
  refine ⟨?_, ?_, ?_, ?_⟩
  · simp [saveExecutionResults, processSteps_length]
  · simp [saveExecutionResults, processSteps_length]
  · simp only [saveExecutionResults, List.map_map]
    exact processSteps_enhanced_numbers taskId ts thoughts 0 history
  · simp only [saveExecutionResults, List.map_map]
    exact processSteps_info_numbers taskId ts thoughts 0 history

/-- The tuple screenshot loop appends paths and URLs in pairs. -/
theorem tupleScreenshotScan_lockstep (p u : String) :
    ∀ items : List TupleItem,
      (tupleScreenshotScan p u items).shots.length =
        (tupleScreenshotScan p u items).urls.length := by
  intro items
  induction items with
  | nil => rfl
  | cons it rest ih =>
    rcases it with ⟨r, t, _ | ⟨pp, wok, m⟩⟩
    · simpa [tupleScreenshotScan] using ih
    · cases wok
      · simpa [tupleScreenshotScan] using ih
      · rfl

/-- Each loop iteration appends equally many screenshot paths and URLs: every
successful persistence appends exactly one of each, every failure neither. -/
theorem processStep_shots_lockstep (taskId ts : String) (th : List Thought)
    (i : Nat) (s : RawStep) :
    (processStep taskId ts th i s).shots.length =
      (processStep taskId ts th i s).shotUrls.length := by
  cases s with
  | agentHistory acts res brain shot =>
    rcases shot with _ | ⟨p, wok, m⟩
    · rfl
    · cases wok <;> rfl
  | tupleStep items =>
    have key := tupleScreenshotScan_lockstep
      (screenshotPathOf (screenshotFilename taskId i ts))
      (screenshotUrlFor (screenshotFilename taskId i ts)) items
    rcases items with _ | ⟨it0, _ | ⟨it1, rest⟩⟩
    · rfl
    all_goals
      rcases hsc : tupleScreenshotScan (screenshotPathOf (screenshotFilename taskId i ts))
        (screenshotUrlFor (screenshotFilename taskId i ts)) _ with ⟨sh, ur, er, sp, su⟩
      rw [hsc] at key
      simp only [processStep, hsc]
      cases su <;> simpa using key
  | attrStep actOpt resOpt tsOpt shotOpt =>
    rcases shotOpt with _ | ⟨p, wok, m⟩ <;>
      cases actOpt <;> cases resOpt <;> cases tsOpt <;>
      first
      | rfl
      | (cases wok <;> rfl)

/-- Summed over the whole loop, the flat path and URL lists have equal
length. -/
theorem processSteps_shots_lockstep (taskId ts : String) (th : List Thought) :
    ∀ (i : Nat) (steps : List RawStep),
      ((processSteps taskId ts th i steps).map (fun o => o.shots)).flatten.length =
        ((processSteps taskId ts th i steps).map (fun o => o.shotUrls)).flatten.length := by
  intro i steps
  induction steps generalizing i with
  | nil => rfl
  | cons s rest ih =>
    simp [processSteps, processStep_shots_lockstep, ih (i + 1)]

/-- **C10** — The screenshot path list and screenshot URL list stay in
lockstep: after normalization, and still after the orchestrator appends the
manual initial/final screenshots (which come as path/URL pairs), the two lists
have equal length; per loop iteration the appended counts are equal as well. -/
theorem c10_screenshot_lockstep :
    (∀ taskId ts thoughts i s,
      (processStep taskId ts thoughts i s).shots.length =
        (processStep taskId ts thoughts i s).shotUrls.length) ∧
    (∀ taskId ts thoughts history initialShot finalShot,
      (addManualScreenshots (saveExecutionResults taskId ts thoughts history)
          initialShot finalShot).screenshots.length =
        (addManualScreenshots (saveExecutionResults taskId ts thoughts history)
          initialShot finalShot).screenshot_urls.length) := by
  refine ⟨processStep_shots_lockstep, ?_⟩
  intro taskId ts thoughts history initialShot finalShot
  have base := processSteps_shots_lockstep taskId ts thoughts 0 history
  rcases initialShot with _ | ⟨p₁, u₁⟩ <;> rcases finalShot with _ | ⟨p₂, u₂⟩ <;>
    simp [addManualScreenshots, saveExecutionResults, base]

/-- What the pipeline makes of a raw step that matches no cascade branch
(no recognized attributes at all): the placeholder keeps the initial defaults
in every structural field; its final `action_summary` comes from the
thought-enhancement fallback `step_info.get("action")`, which is the default
"N/A" when the thought log is empty — not the pre-enhancement
"Unknown action". -/
theorem processStep_attrNone (taskId ts : String) (th : List Thought) (i : Nat) :
    (processStep taskId ts th i (RawStep.attrStep none none none none)).enhanced.action_details =
      ActionDetailsField.emptyDetails ∧
    (processStep taskId ts th i (RawStep.attrStep none none none none)).enhanced.result_details =
      ResultDetailsField.emptyDetails ∧
    (processStep taskId ts th i (RawStep.attrStep none none none none)).enhanced.action_type =
      "unknown" ∧
    (processStep taskId ts th i (RawStep.attrStep none none none none)).enhanced.success_status =
      "unknown" ∧
    (processStep taskId ts th i (RawStep.attrStep none none none none)).enhanced.screenshot_url =
      none ∧
    (processStep taskId ts th i (RawStep.attrStep none none none none)).enhanced.errors = [] ∧
    (processStep taskId ts th i (RawStep.attrStep none none none none)).enhanced.thoughts =
      some (categorizeThoughts (thoughtWindow th (i + 1))) ∧
    (th = [] →
      (processStep taskId ts th i (RawStep.attrStep none none none none)).enhanced.action_summary =
        "N/A") := by
  refine ⟨rfl, rfl, rfl, rfl, rfl, rfl, ?_, ?_⟩
  · simp only [processStep, enhanceStepWithThoughts]
    simp [categorizeThoughts]
  · rintro rfl
    rfl

/-- Indexing the loop outputs: the `k`-th output comes from the `k`-th raw
step, processed at index `i + k`. -/
theorem processSteps_getElem? (taskId ts : String) (th : List Thought) :
    ∀ (steps : List RawStep) (i k : Nat),
      (processSteps taskId ts th i steps)[k]? =
        (steps[k]?).map (fun s => processStep taskId ts th (i + k) s) := by
  intro steps
  induction steps with
  | nil => intro i k; simp [processSteps]
  | cons s rest ih =>
    intro i k
    cases k with
    | zero => simp [processSteps]
    | succ k' =>
      simp [processSteps, ih (i + 1) k', Nat.add_assoc, Nat.add_comm 1 k']

/-- **C1, counterexample** — For a raw step matching no cascade branch (and an
empty thought log), the produced placeholder step's `action_summary` is "N/A",
not the claimed "Unknown action" (the enhancement pass of line 754 overwrites
the "Unknown action" default with `step_info.get("action")`, whose default is
"N/A"), and nothing is recorded in the step's `errors` diagnostic field. -/
theorem c1_counterexample :
    ((saveExecutionResults "task1" "ts" [] [RawStep.attrStep none none none none]).enhanced_steps.headD
        (initialEnhancedStep 0 "ts")).action_summary = "N/A" ∧
    ((saveExecutionResults "task1" "ts" [] [RawStep.attrStep none none none none]).enhanced_steps.headD
        (initialEnhancedStep 0 "ts")).action_summary ≠ "Unknown action" ∧
    ((saveExecutionResults "task1" "ts" [] [RawStep.attrStep none none none none]).enhanced_steps.headD
        (initialEnhancedStep 0 "ts")).errors = [] := by
  refine ⟨by decide, by decide, by decide⟩

/-- **C1, amended** — The Trace Normalizer never aborts: its embedding is a
total function, the whole-loop exception handler is never reached (`error`
stays `None`), and every raw step — of any shape — yields exactly one
normalized step. A step matching no cascade branch degrades to a placeholder
step with no extracted actions, results, screenshot or errors, whose
`action_summary` is the thought-enhancement fallback: the step default "N/A"
when the thought log is empty (the pre-enhancement "Unknown action" default
does not survive), with nothing recorded in that step's diagnostic `errors`
field; only screenshot-persistence failures are recorded there. All remaining
steps are still normalized. -/
theorem c1_no_abort_placeholder :
    ∀ (taskId ts : String) (thoughts : List Thought) (history : List RawStep) (k : Nat),
      (saveExecutionResults taskId ts thoughts history).error = none ∧
      (saveExecutionResults taskId ts thoughts history).enhanced_steps.length = history.length ∧
      (history[k]? = some (RawStep.attrStep none none none none) →
        ∃ e : EnhancedStep,
          (saveExecutionResults taskId ts thoughts history).enhanced_steps[k]? = some e ∧
          e.action_details = ActionDetailsField.emptyDetails ∧
          e.result_details = ResultDetailsField.emptyDetails ∧
          e.action_type = "unknown" ∧
          e.success_status = "unknown" ∧
          e.screenshot_url = none ∧
          e.errors = [] ∧
          (thoughts = [] → e.action_summary = "N/A")) := by
  intro taskId ts thoughts history k
  refine ⟨rfl, ?_, ?_⟩
  · simp [saveExecutionResults, processSteps_length]
  · intro hk
    refine ⟨(processStep taskId ts thoughts k (RawStep.attrStep none none none none)).enhanced,
      ?_, ?_⟩
    · simp [saveExecutionResults, List.getElem?_map,
        processSteps_getElem? taskId ts thoughts history 0 k, hk]
    · obtain ⟨h1, h2, h3, h4, h5, h6, _, h8⟩ := processStep_attrNone taskId ts thoughts k
      exact ⟨h1, h2, h3, h4, h5, h6, h8⟩

/-- Witness for `c1_no_abort_placeholder` at the concrete one-step history
whose only raw step matches no cascade branch, with an empty thought log. -/
theorem c1_no_abort_placeholder_witness :
    (saveExecutionResults "t" "ts" [] [RawStep.attrStep none none none none]).error = none ∧
    (∃ e : EnhancedStep,
      (saveExecutionResults "t" "ts" [] [RawStep.attrStep none none none none]).enhanced_steps[0]? =
        some e ∧ e.errors = [] ∧ e.action_summary = "N/A") := by
  obtain ⟨h1, _, h3⟩ :=
    c1_no_abort_placeholder "t" "ts" [] [RawStep.attrStep none none none none] 0
  obtain ⟨e, he, _, _, _, _, _, herr, hsum⟩ := h3 rfl
  exact ⟨h1, e, he, herr, hsum rfl⟩

/-- Four logged thoughts, all of type "action", for exercising the window
apportionment. -/
def fourThoughts : List Thought :=
  [⟨"t1", "action", "m1"⟩, ⟨"t2", "action", "m2"⟩,
   ⟨"t3", "action", "m3"⟩, ⟨"t4", "action", "m4"⟩]

/-- **C8, counterexample** — With 4 logged thoughts and a 2-step trace, step 1
is handed a window of 4 thoughts and step 2 a window of 2: the per-step window
size is NOT the same for every step of one trace, because the divisor in
`max(1, len(agent_thoughts) // max(1, step_number))` is the step's own number,
not the trace's step count. -/
theorem c8_counterexample :
    (thoughtWindow fourThoughts 1).length = 4 ∧
    (thoughtWindow fourThoughts 2).length = 2 ∧
    ((saveExecutionResults "t" "ts" fourThoughts
        [RawStep.attrStep none none none none,
         RawStep.attrStep none none none none]).enhanced_steps.map
      (fun e => ((e.thoughts.getD ⟨[], [], []⟩).actions).length)) = [4, 2] ∧
    (thoughtWindow fourThoughts 1).length ≠ (thoughtWindow fourThoughts 2).length := by
  refine ⟨by decide, by decide, by decide, by decide⟩

/-- **C8, amended** — Thoughts are apportioned to step k by dividing the total
thought count T by the STEP NUMBER k (not by the trace's step count): the
per-step quota is `max(1, T // k)` (0 when T = 0), and the step receives the
consecutive slice starting at `(k-1) * quota` of length at most `quota + 2`
(the small overlap window), so different steps of the same trace generally
receive windows of different sizes. Through the pipeline, a step with no
recognized attributes carries exactly the categorized thoughts of its
window. -/
theorem c8_thought_window_apportionment :
    (∀ (total k : Nat), 1 ≤ k →
      thoughtsPerStep total k = if 0 < total then max 1 (total / k) else 0) ∧
    (∀ (taskId ts : String) (thoughts : List Thought) (history : List RawStep) (k : Nat),
      history[k]? = some (RawStep.attrStep none none none none) →
      ∃ e : EnhancedStep,
        (saveExecutionResults taskId ts thoughts history).enhanced_steps[k]? = some e ∧
        e.thoughts = some (categorizeThoughts (thoughtWindow thoughts (k + 1)))) := by
  constructor
  · intro total k hk
    simp [thoughtsPerStep, Nat.max_eq_right hk]
  · intro taskId ts thoughts history k hk
    refine ⟨(processStep taskId ts thoughts k (RawStep.attrStep none none none none)).enhanced,
      ?_, ?_⟩
    · simp [saveExecutionResults, List.getElem?_map,
        processSteps_getElem? taskId ts thoughts history 0 k, hk]
    · exact (processStep_attrNone taskId ts thoughts k).2.2.2.2.2.2.1

/-- Witness for `c8_thought_window_apportionment`: the 4-thought, 2-step
instance; step 2's quota is 4 // 2 = 2 and its attached thoughts are the
categorized window of step number 2. -/
theorem c8_thought_window_apportionment_witness :
    thoughtsPerStep 4 2 = 2 ∧
    (∃ e : EnhancedStep,
      (saveExecutionResults "t" "ts" fourThoughts
        [RawStep.attrStep none none none none,
         RawStep.attrStep none none none none]).enhanced_steps[1]? = some e ∧
      e.thoughts = some (categorizeThoughts (thoughtWindow fourThoughts 2))) := by
  constructor
  · rw [c8_thought_window_apportionment.1 4 2 (by decide)]
    decide
  · exact c8_thought_window_apportionment.2 "t" "ts" fourThoughts
      [RawStep.attrStep none none none none, RawStep.attrStep none none none none] 1 rfl
